import Mathlib

/-!
# Verification of the fyne dialog / packaging excerpt

Shallow embedding of `src/cmd/fyne/internal/commands/package-gopherjs.go`
(which concatenates three Go files: the gopherjs packaging command, a
platform stub, and the `dialog` package with its custom layout and themed
background).

Geometry (`fyne.Size`, `fyne.Position`) is embedded over `ℚ`: the Go code
uses `float32` values on which the only operations performed here are
addition, subtraction, multiplication by small constants and halving, all
of which are exact, so rationals model them faithfully.
-/

namespace Fyne

/-- The `fyne.Size` type: a width/height pair. -/
structure Size where
  width : ℚ
  height : ℚ
deriving DecidableEq, Repr

/-- The `fyne.Position` type: an x/y pair. -/
structure Pos where
  x : ℚ
  y : ℚ
deriving DecidableEq, Repr

/-- Modelled from the spec: `fyne.Size.IsZero` is not
under `src/`; the spec says a desired size of "zero means use natural
size", so a size is zero when both components are zero. -/
def Size.IsZero (s : Size) : Bool :=
  decide (s.width = 0 ∧ s.height = 0)

/-- The dialog package constant `padWidth = 32`. -/
def padWidth : ℚ := 32

/-- The dialog package constant `padHeight = 16`. -/
def padHeight : ℚ := 16

/-- The geometry a `fyne.CanvasObject` carries for layout purposes: its
current position (set by `Move`), its current size (set by `Resize`) and
its minimum size (reported by `MinSize`, intrinsic to the object). -/
structure ChildGeom where
  pos : Pos
  size : Size
  minSize : Size
deriving DecidableEq, Repr

/-- The five children handed to `dialogLayout`, in the fixed index order
used by `dialog.create`: `obj[0]` icon, `obj[1]` background (`l.d.bg`),
`obj[2]` content, `obj[3]` buttons, `obj[4]` label (`l.d.label`). -/
structure DialogChildren where
  icon : ChildGeom
  bg : ChildGeom
  content : ChildGeom
  buttons : ChildGeom
  label : ChildGeom
deriving DecidableEq, Repr

/-- Source function `dialogLayout.Layout(obj, size)`, with the current
theme padding `theme.Padding()` passed as the parameter `pad`:

* background: `Move(0,0)`, `Resize(size)`;
* icon: side `padHeight*2 + label.MinSize().Height*2 - theme.Padding()`,
  moved to `(size.Width - iconHeight + theme.Padding(), -theme.Padding())`;
* buttons: resized to their minimum, moved to
  `(size.Width/2 - btnMin.Width/2, size.Height - padHeight - btnMin.Height)`;
* content: moved to `(padWidth/2, label.MinSize().Height + padHeight)` and
  resized to `(size.Width - padWidth, contentEnd - contentStart)` where
  `contentStart = label.Position().Y + label.MinSize().Height + padHeight`
  and `contentEnd = obj[3].Position().Y - theme.Padding()` (read after the
  buttons were moved). -/
def dialogLayout.Layout (pad : ℚ) (c : DialogChildren) (size : Size) : DialogChildren :=
  let bg : ChildGeom := { c.bg with pos := ⟨0, 0⟩, size := size }
  let btnMin := c.buttons.minSize
  let iconHeight := padHeight * 2 + c.label.minSize.height * 2 - pad
  let icon : ChildGeom :=
    { c.icon with
        size := ⟨iconHeight, iconHeight⟩
        pos := ⟨size.width - iconHeight + pad, -pad⟩ }
  let buttons : ChildGeom :=
    { c.buttons with
        size := btnMin
        pos := ⟨size.width / 2 - btnMin.width / 2, size.height - padHeight - btnMin.height⟩ }
  let contentStart := c.label.pos.y + c.label.minSize.height + padHeight
  let contentEnd := buttons.pos.y - pad
  let content : ChildGeom :=
    { c.content with
        pos := ⟨padWidth / 2, c.label.minSize.height + padHeight⟩
        size := ⟨size.width - padWidth, contentEnd - contentStart⟩ }
  { icon := icon, bg := bg, content := content, buttons := buttons, label := c.label }

/-- Source function `dialogLayout.MinSize(obj)`, with `theme.Padding()`
as the parameter `pad`: width is the max of content, buttons and label
minimum widths plus `padWidth`; height is the sum of content, buttons and
label minimum heights plus `theme.Padding()` plus `padHeight*2`. -/
def dialogLayout.MinSize (pad : ℚ) (c : DialogChildren) : Size :=
  let contentMin := c.content.minSize
  let btnMin := c.buttons.minSize
  let width := max (max contentMin.width btnMin.width) c.label.minSize.width + padWidth
  let height := contentMin.height + btnMin.height + c.label.minSize.height + pad + padHeight * 2
  ⟨width, height⟩

/-- Modelled from the spec: `widget.PopUp.MinSize` (fyne `widget` package,
not under `src/`). The spec says `MinSize()` "returns the minimum size
needed to render without clipping, per the layout algorithm (4.3)"; the
popup's content is the container of the five children laid out by
`dialogLayout`, so its minimum size is `dialogLayout.MinSize` of them. -/
def PopUp.MinSizeOf (pad : ℚ) (c : DialogChildren) : Size :=
  dialogLayout.MinSize pad c

/-- Source method `dialog.MinSize()`: `return d.win.MinSize()`, where
`d.win` is the modal popup wrapping the five-child container. -/
def dialog.MinSizeOf (pad : ℚ) (c : DialogChildren) : Size :=
  PopUp.MinSizeOf pad c

/-! ## Dialog state machine

The `dialog` struct's behavioural fields. Callbacks are Go closures; since
`SetOnClosed` only ever builds closures of the one shape appearing in the
source (call the new handler, then the captured original callback if it
was non-nil), the reachable closures form an inductive type, and their
invocation is a pure function producing the list of observable calls. -/

/-- A reachable `func(bool)` callback value: either a user-supplied base
callback (identified by an id) or the wrapper built by `SetOnClosed`,
which captures the new handler's id and the previous callback.
`wrapNil c` is the wrapper whose captured original callback was nil,
`wrap c orig` the one whose captured original callback was `orig`
(the two cases of the captured `Option`, split into constructors so the
type is not a nested inductive). -/
inductive Callback where
  | base (i : ℕ) : Callback
  | wrapNil (c : ℕ) : Callback
  | wrap (c : ℕ) (orig : Callback) : Callback
deriving DecidableEq, Repr

/-- An observable call made by the dialog code: a window operation, an
invocation of a `SetOnClosed` handler (which takes no arguments), or an
invocation of a base callback with its boolean response. -/
inductive CallEvent where
  | winHide : CallEvent
  | winShow : CallEvent
  | winResize (s : Size) : CallEvent
  | winRefresh : CallEvent
  | onClosed (i : ℕ) : CallEvent
  | respCall (i : ℕ) (resp : Bool) : CallEvent
deriving DecidableEq, Repr

/-- Invoking a callback with a boolean response, as the Go closures do: a
base callback is the user function applied to `resp`; a `SetOnClosed`
wrapper runs `closed()` and then, if the captured original callback was
non-nil, invokes it with the same `resp`. -/
def Callback.invoke : Callback → Bool → List CallEvent
  | .base i, resp => [CallEvent.respCall i resp]
  | .wrapNil c, _ => [CallEvent.onClosed c]
  | .wrap c cb, resp => CallEvent.onClosed c :: Callback.invoke cb resp

/-- Invoking an optional callback: Go's `if d.callback != nil` guard. -/
def Callback.invokeOpt : Option Callback → Bool → List CallEvent
  | none, _ => []
  | some cb, resp => cb.invoke resp

/-- Modelled from the spec: `widget.PopUp` (fyne `widget` package, not
under `src/`), the "overlay/modal popup" of the glossary — a top-layer
element that is shown, hidden and resized; its observable state here is
its visibility and its current size. -/
structure PopUp where
  visible : Bool
  size : Size
deriving DecidableEq, Repr

/-- Modelled from the spec: `widget.PopUp.Hide` makes the popup invisible. -/
def PopUp.Hide (w : PopUp) : PopUp := { w with visible := false }

/-- Modelled from the spec: `widget.PopUp.Show` makes the popup visible. -/
def PopUp.Show (w : PopUp) : PopUp := { w with visible := true }

/-- Modelled from the spec: `widget.PopUp.Resize` sets the popup's size. -/
def PopUp.Resize (w : PopUp) (s : Size) : PopUp := { w with size := s }

/-- The behavioural fields of the `dialog` struct: the stored callback,
the desired-size override, the dismiss button's text and the popup. -/
structure DialogState where
  callback : Option Callback
  desiredSize : Size
  dismissText : String
  win : PopUp
deriving DecidableEq, Repr

/-- Source method `dialog.hideWithResponse(resp)`: `d.win.Hide()`, then
`if d.callback != nil { d.callback(resp) }`. The returned list is the
trace of observable calls, in order. -/
def dialog.hideWithResponse (d : DialogState) (resp : Bool) : DialogState × List CallEvent :=
  let d1 : DialogState := { d with win := d.win.Hide }
  (d1, CallEvent.winHide :: Callback.invokeOpt d1.callback resp)

/-- Source method `dialog.Hide()`: `d.hideWithResponse(false)`. -/
def dialog.Hide (d : DialogState) : DialogState × List CallEvent :=
  dialog.hideWithResponse d false

/-- Source method `dialog.Show()`: if the desired size is not zero,
`d.win.Resize(d.desiredSize)`; then `d.win.Show()`. -/
def dialog.Show (d : DialogState) : DialogState × List CallEvent :=
  let (w1, ev1) :=
    if !d.desiredSize.IsZero then
      (d.win.Resize d.desiredSize, [CallEvent.winResize d.desiredSize])
    else
      (d.win, [])
  ({ d with win := w1.Show }, ev1 ++ [CallEvent.winShow])

/-- Source method `dialog.Resize(size)`: `d.desiredSize = size` and
`d.win.Resize(size)`. -/
def dialog.Resize (d : DialogState) (s : Size) : DialogState × List CallEvent :=
  ({ d with desiredSize := s, win := d.win.Resize s }, [CallEvent.winResize s])

/-- Source method `dialog.SetOnClosed(closed)`: remember the current
callback and store a wrapper calling the new handler first, then the
remembered callback when it was non-nil. `c` identifies the new handler. -/
def dialog.SetOnClosed (d : DialogState) (c : ℕ) : DialogState :=
  { d with
      callback :=
        some (match d.callback with
              | none => Callback.wrapNil c
              | some cb => Callback.wrap c cb) }

/-- Source method `dialog.SetDismissText(label)`: set the dismiss
button's text and refresh the popup. -/
def dialog.SetDismissText (d : DialogState) (label : String) : DialogState × List CallEvent :=
  ({ d with dismissText := label }, [CallEvent.winRefresh])

/-- Source method `dialog.Refresh()`: `d.win.Refresh()`. -/
def dialog.Refresh (d : DialogState) : DialogState × List CallEvent :=
  (d, [CallEvent.winRefresh])

/-- A call to one of the public `Dialog` operations of this excerpt that
can affect or observe the stored callback and popup state. -/
inductive DialogOp where
  | show : DialogOp
  | hide : DialogOp
  | setDismissText (label : String) : DialogOp
  | setOnClosed (c : ℕ) : DialogOp
  | refresh : DialogOp
  | resize (s : Size) : DialogOp
deriving DecidableEq, Repr

/-- Dispatch one public operation. -/
def dialog.applyOp (d : DialogState) : DialogOp → DialogState × List CallEvent
  | .show => dialog.Show d
  | .hide => dialog.Hide d
  | .setDismissText l => dialog.SetDismissText d l
  | .setOnClosed c => (dialog.SetOnClosed d c, [])
  | .refresh => dialog.Refresh d
  | .resize s => dialog.Resize d s

/-- Run a sequence of public operations, concatenating the traces. -/
def dialog.runOps (d : DialogState) : List DialogOp → DialogState × List CallEvent
  | [] => (d, [])
  | op :: rest =>
    let r1 := dialog.applyOp d op
    let r2 := dialog.runOps r1.1 rest
    (r2.1, r1.2 ++ r2.2)

/-- Does an event invoke a base callback with response `true`? -/
def CallEvent.isRespTrue : CallEvent → Bool
  | .respCall _ true => true
  | _ => false

/-! ## ThemedBackground -/

/-- The `color.NRGBA` type: non-alpha-premultiplied 8-bit colour components. The
components are naturals; Go's `uint8` conversion is `% 256`. -/
structure NRGBA where
  r : ℕ
  g : ℕ
  b : ℕ
  a : ℕ
deriving DecidableEq, Repr

/-- Modelled from the spec: `col.ToNRGBA` (fyne `internal/color` package,
not under `src/`) reads a colour's 8-bit R, G, B, A components; theme
colours are modelled directly as their NRGBA components, so it is the
component projection. -/
def toNRGBA (c : NRGBA) : ℕ × ℕ × ℕ × ℕ :=
  (c.r, c.g, c.b, c.a)

/-- The state of the renderer's `canvas.Rectangle`: its fill colour and
its size. -/
structure RectState where
  fillColor : NRGBA
  size : Size
deriving DecidableEq, Repr

/-- Source method `themedBackgroundRenderer.Refresh()`: read the
current theme overlay colour (`overlay`, the value of
`theme.OverlayBackgroundColor()` at refresh time), drop its alpha, and
set the rectangle's fill to `NRGBA{R: uint8(r), G: uint8(g), B: uint8(b),
A: 230}`. -/
def themedBackgroundRenderer.Refresh (overlay : NRGBA) (rect : RectState) : RectState :=
  let p := toNRGBA overlay
  { rect with fillColor := ⟨p.1 % 256, p.2.1 % 256, p.2.2.1 % 256, 230⟩ }

/-- Source method `themedBackgroundRenderer.Layout(size)`: resize the
rectangle. -/
def themedBackgroundRenderer.Layout (rect : RectState) (size : Size) : RectState :=
  { rect with size := size }

/-! ## packageGopherJS

The packaging routine performs a sequence of fallible filesystem and
network operations. The outside world is an environment assigning each
operation a result (`Except` an error string); the function returns the
ordered trace of operations it attempted together with the error it
returned, `none` on success. -/

/-- The `Packager` fields used by `packageGopherJS`. -/
structure Packager where
  dir : String
  name : String
  icon : String
  exe : String
  release : Bool
deriving DecidableEq, Repr

/-- The `indexData` template payload built by `packageGopherJS`:
`indexData{GopherJSFile: p.name, IsReleased: p.release, HasGopherJS: true}`. -/
structure IndexData where
  gopherJSFile : String
  isReleased : Bool
  hasGopherJS : Bool
deriving DecidableEq, Repr

/-- Go's `filepath.Join` of two path elements, modelled as separator
concatenation (paths only matter here as identifiers). -/
def filepathJoin (a b : String) : String :=
  a ++ "/" ++ b

/-- Modelled from the spec: `util.EnsureSubDir` (repo `util` package, not
under `src/`) ensures and returns the named subdirectory of `dir` — the
spec places all outputs "under a fixed subdirectory name". -/
def EnsureSubDir (dir sub : String) : String :=
  filepathJoin dir sub

/-- One attempted step of the packaging routine, with the paths it acted
on. -/
inductive PkgStep where
  | createFile (path : String) : PkgStep
  | execIndexTemplate (path : String) (data : IndexData) : PkgStep
  | copyFile (src dst : String) : PkgStep
  | httpGet (url : String) : PkgStep
  | copyBody (dst : String) : PkgStep
deriving DecidableEq, Repr

/-- The outcomes the outside world assigns to the fallible operations:
`os.Create`, `templates.IndexHTML.Execute`, `util.CopyFile` (repo `util`
package, not under `src/`, modelled from the spec as a plain fallible
copy), `http.Get` and `io.Copy` of the response body to a created file. -/
structure GoEnv where
  osCreate : String → Except String Unit
  tplExecuteIndexHTML : String → IndexData → Except String Unit
  copyFile : String → String → Except String Unit
  httpGet : String → Except String Unit
  ioCopyBody : String → Except String Unit

/-- Source local `appDir := util.EnsureSubDir(p.dir, "gopherjs")`. -/
def Packager.appDir (p : Packager) : String :=
  EnsureSubDir p.dir "gopherjs"

/-- Source local `index := filepath.Join(appDir, "index.html")`. -/
def Packager.indexPath (p : Packager) : String :=
  filepathJoin p.appDir "index.html"

/-- Source local `iconDst := filepath.Join(appDir, "icon.png")`. -/
def Packager.iconDst (p : Packager) : String :=
  filepathJoin p.appDir "icon.png"

/-- Source local `exeDst := filepath.Join(appDir, p.name)`. -/
def Packager.exeDst (p : Packager) : String :=
  filepathJoin p.appDir p.name

/-- Source local `webglDebugFile := filepath.Join(appDir, "webgl-debug.js")`. -/
def Packager.webglDst (p : Packager) : String :=
  filepathJoin p.appDir "webgl-debug.js"

/-- The template payload `indexData{...}` built from the packager. -/
def Packager.tplData (p : Packager) : IndexData :=
  ⟨p.name, p.release, true⟩

/-- The URL of the webgl-debug.js script downloaded in non-release mode. -/
def webglDebugURL : String :=
  "https://raw.githubusercontent.com/KhronosGroup/WebGLDeveloperTools/b42e702487d02d5278814e0fe2e2888d234893e6/src/debug/webgl-debug.js"

/-- Source method `Packager.packageGopherJS`, step by step: create
`index.html` and execute the index template on it, copy the icon to
`icon.png`, copy the executable, and — only when `!p.release` — download
`webgl-debug.js`, create the destination file and copy the response body
into it. Every `err != nil` check returns that error at once; the first
component is the ordered trace of attempted steps (the source's local
variables `appDir`, `index`, `iconDst`, `exeDst`, `webglDebugFile` are
the path definitions above). -/
def Packager.packageGopherJS (p : Packager) (env : GoEnv) : List PkgStep × Option String :=
  match env.osCreate p.indexPath with
  | .error e => ([PkgStep.createFile p.indexPath], some e)
  | .ok _ =>
    match env.tplExecuteIndexHTML p.indexPath p.tplData with
    | .error e =>
        ([PkgStep.createFile p.indexPath, PkgStep.execIndexTemplate p.indexPath p.tplData],
         some e)
    | .ok _ =>
      match env.copyFile p.icon p.iconDst with
      | .error e =>
          ([PkgStep.createFile p.indexPath, PkgStep.execIndexTemplate p.indexPath p.tplData,
            PkgStep.copyFile p.icon p.iconDst], some e)
      | .ok _ =>
        match env.copyFile p.exe p.exeDst with
        | .error e =>
            ([PkgStep.createFile p.indexPath, PkgStep.execIndexTemplate p.indexPath p.tplData,
              PkgStep.copyFile p.icon p.iconDst, PkgStep.copyFile p.exe p.exeDst], some e)
        | .ok _ =>
          if !p.release then
            match env.httpGet webglDebugURL with
            | .error e =>
                ([PkgStep.createFile p.indexPath,
                  PkgStep.execIndexTemplate p.indexPath p.tplData,
                  PkgStep.copyFile p.icon p.iconDst, PkgStep.copyFile p.exe p.exeDst,
                  PkgStep.httpGet webglDebugURL], some e)
            | .ok _ =>
              match env.osCreate p.webglDst with
              | .error e =>
                  ([PkgStep.createFile p.indexPath,
                    PkgStep.execIndexTemplate p.indexPath p.tplData,
                    PkgStep.copyFile p.icon p.iconDst, PkgStep.copyFile p.exe p.exeDst,
                    PkgStep.httpGet webglDebugURL, PkgStep.createFile p.webglDst], some e)
              | .ok _ =>
                  ([PkgStep.createFile p.indexPath,
                    PkgStep.execIndexTemplate p.indexPath p.tplData,
                    PkgStep.copyFile p.icon p.iconDst, PkgStep.copyFile p.exe p.exeDst,
                    PkgStep.httpGet webglDebugURL, PkgStep.createFile p.webglDst,
                    PkgStep.copyBody p.webglDst],
                   match env.ioCopyBody p.webglDst with
                   | .error e => some e
                   | .ok _ => none)
          else
            ([PkgStep.createFile p.indexPath, PkgStep.execIndexTemplate p.indexPath p.tplData,
              PkgStep.copyFile p.icon p.iconDst, PkgStep.copyFile p.exe p.exeDst], none)

/-! ## Concrete inputs used by witnesses and counterexamples -/

/-- A concrete set of dialog children: label minimum height 20, all
children at the origin, content min 120×80, buttons min 40×20. -/
def cDemo : DialogChildren :=
  { icon := ⟨⟨0, 0⟩, ⟨0, 0⟩, ⟨48, 48⟩⟩
    bg := ⟨⟨0, 0⟩, ⟨0, 0⟩, ⟨0, 0⟩⟩
    content := ⟨⟨0, 0⟩, ⟨0, 0⟩, ⟨120, 80⟩⟩
    buttons := ⟨⟨0, 0⟩, ⟨0, 0⟩, ⟨40, 20⟩⟩
    label := ⟨⟨0, 0⟩, ⟨0, 0⟩, ⟨60, 20⟩⟩ }

/-- Like `cDemo`, but the label sits at y = 1 instead of the origin. -/
def cDemoShift : DialogChildren :=
  { cDemo with label := ⟨⟨0, 1⟩, ⟨0, 0⟩, ⟨60, 10⟩⟩ }

/-- A visible concrete popup of size 100×100. -/
def winDemo : PopUp :=
  { visible := true, size := ⟨100, 100⟩ }

/-- A concrete dialog whose stored callback is the base callback 0. -/
def dDemo : DialogState :=
  { callback := some (Callback.base 0), desiredSize := ⟨0, 0⟩, dismissText := "OK",
    win := winDemo }

/-- A concrete dialog whose stored callback is the base callback 7. -/
def dDemoB : DialogState :=
  { dDemo with callback := some (Callback.base 7) }

/-- A concrete rectangle state with a black, fully transparent fill. -/
def rectDemo : RectState :=
  { fillColor := ⟨0, 0, 0, 0⟩, size := ⟨0, 0⟩ }

end Fyne

namespace Fyne

/-! ## Claims about the layout geometry -/

/-- Claim C3: for every theme padding, container size `S` and five children,
`dialogLayout.Layout` makes the icon a square of side
`2*padHeight + 2*(label minimum height) - theme.Padding()`, placed at
`(S.width - side + padding, -padding)` — flush to the top-right corner,
overhanging each edge by the padding; in particular with label minimum
height 20 (and `padHeight = 16`) the side is `16*2 + 20*2 - padding`. -/
theorem dialogLayout_Layout_icon_spec (pad : ℚ) (c : DialogChildren) (s : Size) :
    (dialogLayout.Layout pad c s).icon.size.width =
      (dialogLayout.Layout pad c s).icon.size.height ∧
    (dialogLayout.Layout pad c s).icon.size.height =
      2 * padHeight + 2 * c.label.minSize.height - pad ∧
    (dialogLayout.Layout pad c s).icon.pos =
      ⟨s.width - (2 * padHeight + 2 * c.label.minSize.height - pad) + pad, -pad⟩ ∧
    (c.label.minSize.height = 20 →
      (dialogLayout.Layout pad c s).icon.size.width = 16 * 2 + 20 * 2 - pad) := by
  refine ⟨rfl, by simp [dialogLayout.Layout]; ring, ?_, ?_⟩
  · simp only [dialogLayout.Layout, Pos.mk.injEq]
    exact ⟨by ring, trivial⟩
  · intro h
    simp [dialogLayout.Layout, h, padHeight]

/-- Witness for C3 at padding 4, container 200×300 and `cDemo` (label
minimum height 20): the icon side evaluates to `16*2 + 20*2 - 4`. -/
theorem dialogLayout_Layout_icon_spec_witness :
    cDemo.label.minSize.height = 20 ∧
    (dialogLayout.Layout 4 cDemo ⟨200, 300⟩).icon.size.width = 16 * 2 + 20 * 2 - 4 :=
  ⟨rfl, (dialogLayout_Layout_icon_spec 4 cDemo ⟨200, 300⟩).2.2.2 rfl⟩

/-- Claim C4: for every theme padding and five children, the dialog's
`MinSize()` is exactly the layout algorithm's minimum: width
`max(content min width, buttons min width, label min width) + padWidth`,
height `content + buttons + label minimum heights + theme.Padding() +
2*padHeight`. -/
theorem dialog_MinSize_spec (pad : ℚ) (c : DialogChildren) :
    dialog.MinSizeOf pad c = dialogLayout.MinSize pad c ∧
    dialog.MinSizeOf pad c =
      ⟨max (max c.content.minSize.width c.buttons.minSize.width) c.label.minSize.width +
         padWidth,
       c.content.minSize.height + c.buttons.minSize.height + c.label.minSize.height + pad +
         2 * padHeight⟩ := by
  refine ⟨rfl, ?_⟩
  simp only [dialog.MinSizeOf, PopUp.MinSizeOf, dialogLayout.MinSize, Size.mk.injEq]
  exact ⟨trivial, by ring⟩

/-- Claim C5, amended: for every theme padding, container size and five
children, `dialogLayout.Layout` puts the content at `(padWidth/2, label
min height + padHeight)` with width `S.width - padWidth`, and its height
is `(button top - theme.Padding()) - (label y position + label min height
+ padHeight)`; when the label sits at y = 0 this is the claimed
`(button top - spacing unit) - (label height + vertical pad)`. -/
theorem dialogLayout_Layout_content_spec (pad : ℚ) (c : DialogChildren) (s : Size) :
    (dialogLayout.Layout pad c s).content.pos =
      ⟨padWidth / 2, c.label.minSize.height + padHeight⟩ ∧
    (dialogLayout.Layout pad c s).content.size.width = s.width - padWidth ∧
    (dialogLayout.Layout pad c s).content.size.height =
      ((dialogLayout.Layout pad c s).buttons.pos.y - pad) -
        (c.label.pos.y + c.label.minSize.height + padHeight) :=
  ⟨rfl, rfl, rfl⟩

/-- Claim C5, counterexample to the claim as stated: with theme padding 4,
container 200×300 and `cDemoShift` (whose label sits at y = 1), the
content height is not `(button top - padding) - (label min height +
padHeight)`: the code also subtracts the label's y position. -/
theorem dialogLayout_Layout_content_height_cex :
    (dialogLayout.Layout 4 cDemoShift ⟨200, 300⟩).content.size.height ≠
      ((dialogLayout.Layout 4 cDemoShift ⟨200, 300⟩).buttons.pos.y - 4) -
        (cDemoShift.label.minSize.height + padHeight) := by
  norm_num [dialogLayout.Layout, cDemoShift, cDemo, padHeight, padWidth]

/-- Claim C6: for every theme padding, container size `S` and five
children, `dialogLayout.Layout` moves the background to `(0,0)` and
resizes it to exactly `S`, and gives the buttons their own minimum size,
horizontally centered (`x = S.width/2 - btnMin.width/2`) with the top
edge at `S.height - padHeight - btnMin.height`. -/
theorem dialogLayout_Layout_bg_buttons_spec (pad : ℚ) (c : DialogChildren) (s : Size) :
    (dialogLayout.Layout pad c s).bg.pos = ⟨0, 0⟩ ∧
    (dialogLayout.Layout pad c s).bg.size = s ∧
    (dialogLayout.Layout pad c s).buttons.size = c.buttons.minSize ∧
    (dialogLayout.Layout pad c s).buttons.pos =
      ⟨s.width / 2 - c.buttons.minSize.width / 2,
       s.height - padHeight - c.buttons.minSize.height⟩ :=
  ⟨rfl, rfl, rfl, rfl⟩

/-! ## Claims about the dialog behaviour -/

/-- Claim C1: calling `Hide()` hides the popup first and then, when a
callback is stored, invokes exactly that callback once with `false`; when
no callback is stored, nothing beyond the hide happens. -/
theorem dialog_Hide_spec (d : DialogState) :
    (dialog.Hide d).1.win.visible = false ∧
    (∀ cb, d.callback = some cb →
      (dialog.Hide d).2 = CallEvent.winHide :: cb.invoke false) ∧
    (d.callback = none → (dialog.Hide d).2 = [CallEvent.winHide]) := by
  refine ⟨rfl, ?_, ?_⟩
  · intro cb h
    simp [dialog.Hide, dialog.hideWithResponse, PopUp.Hide, Callback.invokeOpt, h]
  · intro h
    simp [dialog.Hide, dialog.hideWithResponse, PopUp.Hide, Callback.invokeOpt, h]

/-- Witness for C1 at `dDemo` (stored callback `base 0`): hiding produces
the hide followed by the single invocation with `false`. -/
theorem dialog_Hide_spec_witness :
    dDemo.callback = some (Callback.base 0) ∧
    (dialog.Hide dDemo).2 = CallEvent.winHide :: (Callback.base 0).invoke false :=
  ⟨rfl, (dialog_Hide_spec dDemo).2.1 (Callback.base 0) rfl⟩

/-- A sequence of `SetOnClosed` registrations, applied in order. -/
def dialog.setOnClosedAll (d : DialogState) (ids : List ℕ) : DialogState :=
  ids.foldl dialog.SetOnClosed d

theorem setOnClosed_invokeOpt (d : DialogState) (i : ℕ) (resp : Bool) :
    Callback.invokeOpt (dialog.SetOnClosed d i).callback resp =
      CallEvent.onClosed i :: Callback.invokeOpt d.callback resp := by
  cases h : d.callback <;>
    simp [dialog.SetOnClosed, Callback.invokeOpt, Callback.invoke, h]

theorem setOnClosedAll_invokeOpt (ids : List ℕ) (d : DialogState) (resp : Bool) :
    Callback.invokeOpt (dialog.setOnClosedAll d ids).callback resp =
      ids.reverse.map CallEvent.onClosed ++ Callback.invokeOpt d.callback resp := by
  induction ids generalizing d with
  | nil => simp [dialog.setOnClosedAll]
  | cons i ids ih =>
    have h1 : dialog.setOnClosedAll d (i :: ids) =
        dialog.setOnClosedAll (dialog.SetOnClosed d i) ids := rfl
    rw [h1, ih, setOnClosed_invokeOpt]
    simp

/-- Claim C2: after any sequence of `SetOnClosed` registrations, the next
close invokes the registered handlers exactly once each, newest first,
followed by the previously stored callback chain, which still receives
the boolean response — in particular an original base callback receives
`resp` itself, after all registered handlers. -/
theorem dialog_SetOnClosed_close_spec (d : DialogState) (ids : List ℕ) (resp : Bool) :
    (dialog.hideWithResponse (dialog.setOnClosedAll d ids) resp).2 =
      CallEvent.winHide ::
        (ids.reverse.map CallEvent.onClosed ++ Callback.invokeOpt d.callback resp) ∧
    (∀ i0, d.callback = some (Callback.base i0) →
      (dialog.hideWithResponse (dialog.setOnClosedAll d ids) resp).2 =
        CallEvent.winHide ::
          (ids.reverse.map CallEvent.onClosed ++ [CallEvent.respCall i0 resp])) := by
  have hmain : (dialog.hideWithResponse (dialog.setOnClosedAll d ids) resp).2 =
      CallEvent.winHide ::
        (ids.reverse.map CallEvent.onClosed ++ Callback.invokeOpt d.callback resp) := by
    simp [dialog.hideWithResponse, PopUp.Hide, setOnClosedAll_invokeOpt]
  refine ⟨hmain, ?_⟩
  intro i0 h
  rw [hmain, h]
  rfl

/-- Witness for C2 at `dDemoB` (stored base callback 7), registering
handlers 1 then 2 and closing with `false`: the trace is the hide, then
handler 2, then handler 1, then the base callback with `false`. -/
theorem dialog_SetOnClosed_close_spec_witness :
    (dialog.hideWithResponse (dialog.setOnClosedAll dDemoB [1, 2]) false).2 =
      CallEvent.winHide ::
        (([1, 2] : List ℕ).reverse.map CallEvent.onClosed ++
          [CallEvent.respCall 7 false]) :=
  (dialog_SetOnClosed_close_spec dDemoB [1, 2] false).2 7 rfl

/-- Claim C7: `Resize(size)` records the size as the desired size and
resizes the popup immediately; a subsequent `Show()` on a non-zero
desired size resizes the popup to it before showing it (trace: resize,
then show), so the shown dialog has the resized dimensions; on a zero
desired size `Show()` performs no resize and only shows. -/
theorem dialog_Resize_Show_spec (d : DialogState) (s : Size) :
    (dialog.Resize d s).1.desiredSize = s ∧
    (dialog.Resize d s).1.win.size = s ∧
    (dialog.Resize d s).2 = [CallEvent.winResize s] ∧
    (s.IsZero = false →
      (dialog.Show (dialog.Resize d s).1).1.win.size = s ∧
      (dialog.Show (dialog.Resize d s).1).1.win.visible = true ∧
      (dialog.Show (dialog.Resize d s).1).2 = [CallEvent.winResize s, CallEvent.winShow]) ∧
    (∀ d2 : DialogState, d2.desiredSize.IsZero = true →
      (dialog.Show d2).1.win.size = d2.win.size ∧
      (dialog.Show d2).1.win.visible = true ∧
      (dialog.Show d2).2 = [CallEvent.winShow]) := by
  refine ⟨rfl, rfl, rfl, ?_, ?_⟩
  · intro h
    refine ⟨?_, rfl, ?_⟩ <;>
      simp [dialog.Show, dialog.Resize, PopUp.Resize, PopUp.Show, h]
  · intro d2 h
    refine ⟨?_, rfl, ?_⟩ <;>
      simp [dialog.Show, PopUp.Show, h]

/-- Witness for C7 at `dDemo` and the non-zero size 50×60: after
`Resize` then `Show`, the popup is visible with size 50×60 and the trace
is resize then show. -/
theorem dialog_Resize_Show_spec_witness :
    (dialog.Show (dialog.Resize dDemo ⟨50, 60⟩).1).1.win.size = ⟨50, 60⟩ ∧
    (dialog.Show (dialog.Resize dDemo ⟨50, 60⟩).1).1.win.visible = true ∧
    (dialog.Show (dialog.Resize dDemo ⟨50, 60⟩).1).2 =
      [CallEvent.winResize ⟨50, 60⟩, CallEvent.winShow] :=
  (dialog_Resize_Show_spec dDemo ⟨50, 60⟩).2.2.2.1 (by simp [Size.IsZero])

theorem invoke_false_no_true (cb : Callback) :
    ((cb.invoke false).all fun e => !e.isRespTrue) = true := by
  induction cb with
  | base i => rfl
  | wrapNil c => rfl
  | wrap c cb ih => simpa [Callback.invoke, CallEvent.isRespTrue] using ih

theorem invokeOpt_false_no_true (c : Option Callback) :
    ((Callback.invokeOpt c false).all fun e => !e.isRespTrue) = true := by
  cases c with
  | none => rfl
  | some cb => simpa [Callback.invokeOpt] using invoke_false_no_true cb

theorem applyOp_no_true (d : DialogState) (op : DialogOp) :
    (((dialog.applyOp d op).2.all fun e => !e.isRespTrue) = true) := by
  cases op
  · cases h : d.desiredSize.IsZero <;>
      simp [dialog.applyOp, dialog.Show, h, CallEvent.isRespTrue]
  · simpa [dialog.applyOp, dialog.Hide, dialog.hideWithResponse, PopUp.Hide,
      CallEvent.isRespTrue] using invokeOpt_false_no_true d.callback
  · rfl
  · rfl
  · rfl
  · rfl

/-- Claim C10: through any sequence of public `Dialog` operations of this
excerpt, from any state, the stored callback is never invoked with the
value `true`: the only close path is `Hide()`, which passes `false` to
`hideWithResponse`, so the trace contains no base-callback invocation
with `true`. -/
theorem dialog_runOps_never_true_spec (d : DialogState) (ops : List DialogOp) :
    (((dialog.runOps d ops).2.all fun e => !e.isRespTrue) = true) := by
  induction ops generalizing d with
  | nil => rfl
  | cons op rest ih =>
    simp [dialog.runOps, List.all_append, applyOp_no_true d op,
      ih (dialog.applyOp d op).1]

/-! ## Claim about the themed background -/

/-- Claim C8: on refresh the rectangle's fill becomes the NRGBA colour
whose R, G, B come from the current theme overlay colour (exactly those
components whenever they are in the 8-bit range) and whose alpha is
exactly 230, whatever the overlay colour's own alpha was. -/
theorem themedBackground_Refresh_spec (overlay : NRGBA) (rect : RectState) :
    (themedBackgroundRenderer.Refresh overlay rect).fillColor.a = 230 ∧
    (themedBackgroundRenderer.Refresh overlay rect).fillColor =
      ⟨overlay.r % 256, overlay.g % 256, overlay.b % 256, 230⟩ ∧
    (overlay.r < 256 → overlay.g < 256 → overlay.b < 256 →
      (themedBackgroundRenderer.Refresh overlay rect).fillColor =
        ⟨overlay.r, overlay.g, overlay.b, 230⟩) ∧
    (∀ a1 a2 : ℕ,
      themedBackgroundRenderer.Refresh { overlay with a := a1 } rect =
        themedBackgroundRenderer.Refresh { overlay with a := a2 } rect) := by
  refine ⟨rfl, rfl, ?_, fun a1 a2 => rfl⟩
  intro hr hg hb
  simp [themedBackgroundRenderer.Refresh, toNRGBA,
    Nat.mod_eq_of_lt hr, Nat.mod_eq_of_lt hg, Nat.mod_eq_of_lt hb]

/-- Witness for C8 at the overlay colour (10, 20, 30, 99) and `rectDemo`:
the fill becomes (10, 20, 30, 230). -/
theorem themedBackground_Refresh_spec_witness :
    (themedBackgroundRenderer.Refresh ⟨10, 20, 30, 99⟩ rectDemo).fillColor =
      ⟨10, 20, 30, 230⟩ :=
  (themedBackground_Refresh_spec ⟨10, 20, 30, 99⟩ rectDemo).2.2.1
    (by decide) (by decide) (by decide)

/-! ## Claim about the packaging routine -/

/-- A concrete non-release packager. -/
def pDemo : Packager :=
  { dir := "web", name := "app.js", icon := "Icon.png", exe := "app", release := false }

/-- An environment in which every operation succeeds. -/
def envOkDemo : GoEnv :=
  { osCreate := fun _ => .ok ()
    tplExecuteIndexHTML := fun _ _ => .ok ()
    copyFile := fun _ _ => .ok ()
    httpGet := fun _ => .ok ()
    ioCopyBody := fun _ => .ok () }

/-- Claim C9: `packageGopherJS` returns the first error of any
file-create, template-execute, copy or download step immediately, with no
retry and no later step attempted; on the success path it writes the
templated `index.html`, the copied icon and the copied executable under
the `gopherjs` subdirectory, and it performs the `webgl-debug.js`
download if and only if the packager is not in release mode. -/
theorem packageGopherJS_spec (p : Packager) (env : GoEnv) :
    (∀ e, env.osCreate p.indexPath = .error e →
      p.packageGopherJS env = ([PkgStep.createFile p.indexPath], some e)) ∧
    (env.osCreate p.indexPath = .ok () →
      ∀ e, env.tplExecuteIndexHTML p.indexPath p.tplData = .error e →
      p.packageGopherJS env =
        ([PkgStep.createFile p.indexPath,
          PkgStep.execIndexTemplate p.indexPath p.tplData], some e)) ∧
    (env.osCreate p.indexPath = .ok () →
      env.tplExecuteIndexHTML p.indexPath p.tplData = .ok () →
      ∀ e, env.copyFile p.icon p.iconDst = .error e →
      p.packageGopherJS env =
        ([PkgStep.createFile p.indexPath,
          PkgStep.execIndexTemplate p.indexPath p.tplData,
          PkgStep.copyFile p.icon p.iconDst], some e)) ∧
    (env.osCreate p.indexPath = .ok () →
      env.tplExecuteIndexHTML p.indexPath p.tplData = .ok () →
      env.copyFile p.icon p.iconDst = .ok () →
      ∀ e, env.copyFile p.exe p.exeDst = .error e →
      p.packageGopherJS env =
        ([PkgStep.createFile p.indexPath,
          PkgStep.execIndexTemplate p.indexPath p.tplData,
          PkgStep.copyFile p.icon p.iconDst,
          PkgStep.copyFile p.exe p.exeDst], some e)) ∧
    (p.release = false →
      env.osCreate p.indexPath = .ok () →
      env.tplExecuteIndexHTML p.indexPath p.tplData = .ok () →
      env.copyFile p.icon p.iconDst = .ok () →
      env.copyFile p.exe p.exeDst = .ok () →
      ∀ e, env.httpGet webglDebugURL = .error e →
      p.packageGopherJS env =
        ([PkgStep.createFile p.indexPath,
          PkgStep.execIndexTemplate p.indexPath p.tplData,
          PkgStep.copyFile p.icon p.iconDst,
          PkgStep.copyFile p.exe p.exeDst,
          PkgStep.httpGet webglDebugURL], some e)) ∧
    (p.release = false →
      env.osCreate p.indexPath = .ok () →
      env.tplExecuteIndexHTML p.indexPath p.tplData = .ok () →
      env.copyFile p.icon p.iconDst = .ok () →
      env.copyFile p.exe p.exeDst = .ok () →
      env.httpGet webglDebugURL = .ok () →
      ∀ e, env.osCreate p.webglDst = .error e →
      p.packageGopherJS env =
        ([PkgStep.createFile p.indexPath,
          PkgStep.execIndexTemplate p.indexPath p.tplData,
          PkgStep.copyFile p.icon p.iconDst,
          PkgStep.copyFile p.exe p.exeDst,
          PkgStep.httpGet webglDebugURL,
          PkgStep.createFile p.webglDst], some e)) ∧
    (p.release = false →
      env.osCreate p.indexPath = .ok () →
      env.tplExecuteIndexHTML p.indexPath p.tplData = .ok () →
      env.copyFile p.icon p.iconDst = .ok () →
      env.copyFile p.exe p.exeDst = .ok () →
      env.httpGet webglDebugURL = .ok () →
      env.osCreate p.webglDst = .ok () →
      ∀ e, env.ioCopyBody p.webglDst = .error e →
      p.packageGopherJS env =
        ([PkgStep.createFile p.indexPath,
          PkgStep.execIndexTemplate p.indexPath p.tplData,
          PkgStep.copyFile p.icon p.iconDst,
          PkgStep.copyFile p.exe p.exeDst,
          PkgStep.httpGet webglDebugURL,
          PkgStep.createFile p.webglDst,
          PkgStep.copyBody p.webglDst], some e)) ∧
    (p.release = true →
      env.osCreate p.indexPath = .ok () →
      env.tplExecuteIndexHTML p.indexPath p.tplData = .ok () →
      env.copyFile p.icon p.iconDst = .ok () →
      env.copyFile p.exe p.exeDst = .ok () →
      p.packageGopherJS env =
        ([PkgStep.createFile p.indexPath,
          PkgStep.execIndexTemplate p.indexPath p.tplData,
          PkgStep.copyFile p.icon p.iconDst,
          PkgStep.copyFile p.exe p.exeDst], none)) ∧
    (p.release = false →
      env.osCreate p.indexPath = .ok () →
      env.tplExecuteIndexHTML p.indexPath p.tplData = .ok () →
      env.copyFile p.icon p.iconDst = .ok () →
      env.copyFile p.exe p.exeDst = .ok () →
      env.httpGet webglDebugURL = .ok () →
      env.osCreate p.webglDst = .ok () →
      env.ioCopyBody p.webglDst = .ok () →
      p.packageGopherJS env =
        ([PkgStep.createFile p.indexPath,
          PkgStep.execIndexTemplate p.indexPath p.tplData,
          PkgStep.copyFile p.icon p.iconDst,
          PkgStep.copyFile p.exe p.exeDst,
          PkgStep.httpGet webglDebugURL,
          PkgStep.createFile p.webglDst,
          PkgStep.copyBody p.webglDst], none)) ∧
    ((p.packageGopherJS env).2 = none →
      (PkgStep.httpGet webglDebugURL ∈ (p.packageGopherJS env).1 ↔ p.release = false)) := by
  refine ⟨?_, ?_, ?_, ?_, ?_, ?_, ?_, ?_, ?_, ?_⟩
  · intro e h1
    simp [Packager.packageGopherJS, h1]
  · intro h1 e h2
    simp [Packager.packageGopherJS, h1, h2]
  · intro h1 h2 e h3
    simp [Packager.packageGopherJS, h1, h2, h3]
  · intro h1 h2 h3 e h4
    simp [Packager.packageGopherJS, h1, h2, h3, h4]
  · intro hrel h1 h2 h3 h4 e h5
    simp [Packager.packageGopherJS, hrel, h1, h2, h3, h4, h5]
  · intro hrel h1 h2 h3 h4 h5 e h6
    simp [Packager.packageGopherJS, hrel, h1, h2, h3, h4, h5, h6]
  · intro hrel h1 h2 h3 h4 h5 h6 e h7
    simp [Packager.packageGopherJS, hrel, h1, h2, h3, h4, h5, h6, h7]
  · intro hrel h1 h2 h3 h4
    simp [Packager.packageGopherJS, hrel, h1, h2, h3, h4]
  · intro hrel h1 h2 h3 h4 h5 h6 h7
    simp [Packager.packageGopherJS, hrel, h1, h2, h3, h4, h5, h6, h7]
  · intro hnone
    cases h1 : env.osCreate p.indexPath with
    | error e => simp [Packager.packageGopherJS, h1] at hnone
    | ok u =>
      cases u
      cases h2 : env.tplExecuteIndexHTML p.indexPath p.tplData with
      | error e => simp [Packager.packageGopherJS, h1, h2] at hnone
      | ok u =>
        cases u
        cases h3 : env.copyFile p.icon p.iconDst with
        | error e => simp [Packager.packageGopherJS, h1, h2, h3] at hnone
        | ok u =>
          cases u
          cases h4 : env.copyFile p.exe p.exeDst with
          | error e => simp [Packager.packageGopherJS, h1, h2, h3, h4] at hnone
          | ok u =>
            cases u
            cases hrel : p.release
            · cases h5 : env.httpGet webglDebugURL with
              | error e =>
                  simp [Packager.packageGopherJS, h1, h2, h3, h4, hrel, h5] at hnone
              | ok u =>
                cases u
                cases h6 : env.osCreate p.webglDst with
                | error e =>
                    simp [Packager.packageGopherJS, h1, h2, h3, h4, hrel, h5, h6] at hnone
                | ok u =>
                  cases u
                  simp [Packager.packageGopherJS, h1, h2, h3, h4, hrel, h5, h6]
            · simp [Packager.packageGopherJS, h1, h2, h3, h4, hrel]

/-- Witness for C9 at `pDemo` (non-release) in the all-success
environment: the full seven-step trace is produced and no error is
returned. -/
theorem packageGopherJS_spec_witness :
    pDemo.packageGopherJS envOkDemo =
      ([PkgStep.createFile pDemo.indexPath,
        PkgStep.execIndexTemplate pDemo.indexPath pDemo.tplData,
        PkgStep.copyFile pDemo.icon pDemo.iconDst,
        PkgStep.copyFile pDemo.exe pDemo.exeDst,
        PkgStep.httpGet webglDebugURL,
        PkgStep.createFile pDemo.webglDst,
        PkgStep.copyBody pDemo.webglDst], none) :=
  (packageGopherJS_spec pDemo envOkDemo).2.2.2.2.2.2.2.2.1
    rfl rfl rfl rfl rfl rfl rfl rfl

end Fyne
